import Mathlib

/-!
Shallow embedding of `src/vyked/bus.py` (classes `TCPBus` and `PubSubBus`)
for a verification of the repository specification.

Conventions of the embedding:
* Python strings are embedded as `List Char` (`PyStr`), so that Python's
  `str.split` / `str.join` become Mathlib's `List.splitOn` / `List.intercalate`.
* Python values that may be either strings or ints (service versions) are
  embedded as `PyVal`, with `PyVal.str` embedding Python's `str(...)`.
* Python truthiness of an optional string (`if node_id:`) is `pyTruthy`.
* Exceptions are embedded as `Except PyErr`; the constructors of `PyErr`
  name the Python exception classes that can be raised on each path.
* External collaborators (registry client, pub/sub transport, the event
  loop) are passed in as function parameters; scheduled sends/publishes are
  returned as explicit action lists.
-/

namespace Vyked

/-- Embedding of a Python string as its list of characters. -/
abbrev PyStr := List Char

/-- Coercion of a Lean string literal into the `PyStr` embedding. -/
def pys (s : String) : PyStr := s.toList

/-- Embedding of a Python value that is either a string or an int (used for
service versions, which the code passes through `str(...)`). -/
inductive PyVal where
  | vstr (s : PyStr)
  | vint (n : Int)
  deriving DecidableEq, Repr

/-- Embedding of Python `str(v)` on a `PyVal`. -/
def PyVal.str : PyVal → PyStr
  | .vstr s => s
  | .vint n => (toString n).toList

/-- Python `==` between two possibly-mixed-type values: strings compare by
value to strings, ints to ints, and a string never equals an int. -/
def PyVal.pyEq : PyVal → PyVal → Bool
  | .vstr s, .vstr t => s = t
  | .vint m, .vint n => m = n
  | _, _ => false

/-- Truthiness of an optional Python string: `None` and `''` are falsy. -/
def pyTruthy : Option PyStr → Bool
  | none => false
  | some s => s ≠ []

/-- Decidable equality on `Except`, for evaluating the embedding on
concrete inputs. -/
instance {ε α : Type} [DecidableEq ε] [DecidableEq α] :
    DecidableEq (Except ε α) := fun a b =>
  match a, b with
  | .error e, .error f => decidable_of_iff (e = f) (by simp)
  | .error _, .ok _ => .isFalse (by simp)
  | .ok _, .error _ => .isFalse (by simp)
  | .ok x, .ok y => decidable_of_iff (x = y) (by simp)

/-- The Python exceptions that the embedded code paths can raise. -/
inductive PyErr where
  | typeError
  | attributeError
  | indexError
  | valueError
  | clientNotFoundError
  | clientDisconnected
  deriving DecidableEq, Repr

end Vyked

namespace Vyked

/-! ### PubSubBus (`src/vyked/bus.py` lines 217-285) -/

/-- One exclusive subscriber as returned by
`registry_client.get_subscribers`: the dict keys
`name, version, host, port, node_id, strategy` read in `PubSubBus.xpublish`. -/
structure Subscriber where
  name : PyStr
  version : PyVal
  host : PyStr
  port : Nat
  node_id : PyStr
  strategy : PyStr
  deriving DecidableEq, Repr

instance : Inhabited Subscriber := ⟨⟨[], .vstr [], [], 0, [], []⟩⟩

/-- A local service-client proxy as used by `PubSubBus.subscription_handler`:
its `name`, `version`, and the set of attribute names for which
`getattr(client, endpoint)` succeeds. -/
structure ServiceClient where
  name : PyStr
  version : PyVal
  endpoints : List PyStr
  deriving DecidableEq, Repr

/-- Embedding of `PubSubBus._get_pubsub_key` (bus.py lines 281-285):
`'/'.join((service, str(version), endpoint, node_id))` when `node_id` is
truthy, else `'/'.join((service, str(version), endpoint))`. -/
def getPubsubKey (service : PyStr) (version : PyVal) (endpoint : PyStr)
    (node_id : Option PyStr) : PyStr :=
  if pyTruthy node_id then
    List.intercalate [ '/' ] [service, version.str, endpoint, node_id.getD []]
  else
    List.intercalate [ '/' ] [service, version.str, endpoint]

/-- The topic-parsing step of `PubSubBus.subscription_handler`
(bus.py lines 271-276): `elements = endpoint.split('/')`, then tuple
unpacking into 4 variables when `len(elements) > 3` and into 3 otherwise.
A Python tuple unpacking against the wrong number of elements raises
`ValueError`. -/
def parseTopic (topic : PyStr) :
    Except PyErr (PyStr × PyStr × PyStr × Option PyStr) :=
  let elements := topic.splitOn '/'
  if 3 < elements.length then
    match elements with
    | [service, version, endpoint, node_id] =>
        .ok (service, version, endpoint, some node_id)
    | _ => .error .valueError
  else
    match elements with
    | [service, version, endpoint] => .ok (service, version, endpoint, none)
    | _ => .error .valueError

/-- The action `subscription_handler` schedules on success: invoking the
matched client's endpoint coroutine on the decoded payload. -/
inductive SubAction where
  | invoke (client : ServiceClient) (endpoint : PyStr) (payload : PyStr)
  deriving DecidableEq, Repr

/-- Embedding of `PubSubBus.subscription_handler` (bus.py lines 271-279).
After parsing the topic, the list comprehension
`[sc for sc in self._clients if (sc.name == service and sc.version == version)]`
is filtered with Python `==` (a string segment never equals an int version),
and indexing `[0]` into an empty result raises `IndexError`; `getattr` on a
missing endpoint attribute raises `AttributeError`. No exception is caught
and nothing is logged in this method. -/
def subscription_handler (clients : List ServiceClient)
    (topic payload : PyStr) : Except PyErr SubAction :=
  match parseTopic topic with
  | .error e => .error e
  | .ok (service, version, ep, _node_id) =>
      match clients.filter
          (fun sc => sc.name == service && sc.version.pyEq (.vstr version)) with
      | [] => .error .indexError
      | client :: _ =>
          if ep ∈ client.endpoints then .ok (.invoke client ep payload)
          else .error .attributeError

/-- The insertion-ordered list of keys of the `strategies` defaultdict built
in `PubSubBus.xpublish` (bus.py lines 258-261): one key per distinct
`(subscriber['name'], subscriber['version'])`, in first-appearance order. -/
def groupKeys (subs : List Subscriber) : List (PyStr × PyVal) :=
  subs.foldl
    (fun ks s => if (s.name, s.version) ∈ ks then ks else ks ++ [(s.name, s.version)])
    []

/-- The value list the `strategies` defaultdict holds for one key: all
subscribers with that `(name, version)`, in registry order. -/
def groupOf (subs : List Subscriber) (k : PyStr × PyVal) : List Subscriber :=
  subs.filter (fun s => (s.name, s.version) == k)

/-- The per-group target selection of `PubSubBus.xpublish`
(bus.py lines 262-267): `if value[0][3] == 'LEADER': node_id = value[0][2]`,
otherwise `node_id = random.choice(value)[2]`. The random draw is modelled
by the oracle `pick`; a faithful oracle satisfies `pick l ∈ l` on nonempty
`l`. Note the code inspects only the strategy of the FIRST list entry. -/
def selectNodeId (pick : List Subscriber → Subscriber)
    (value : List Subscriber) : PyStr :=
  if value.headI.strategy == pys "LEADER" then value.headI.node_id
  else (pick value).node_id

/-- Embedding of `PubSubBus.xpublish` (bus.py lines 256-269): the list of
`(topic, body)` pairs handed to `self._pubsub_handler.publish`, one per
group, where the topic is the per-replica key of the selected node and the
body is `json.dumps(payload, cls=VykedEncoder)` (the serialization is the
parameter `dumps`). `subscribers` is the result of the awaited registry
call `get_subscribers(service, version, endpoint)`. -/
def xpublishActions {π : Type} (dumps : π → PyStr)
    (pick : List Subscriber → Subscriber) (subscribers : List Subscriber)
    (service : PyStr) (version : PyVal) (endpoint : PyStr) (payload : π) :
    List (PyStr × PyStr) :=
  (groupKeys subscribers).map (fun k =>
    let node_id := selectNodeId pick (groupOf subscribers k)
    (getPubsubKey service version endpoint (some node_id), dumps payload))

/-- Embedding of `PubSubBus.publish` (bus.py lines 251-254): it always
schedules a broadcast publish to `self._get_pubsub_key(service, version,
endpoint)` with the serialized payload, and also schedules
`self.xpublish(service, version, endpoint, payload)`. -/
def publishActions {π : Type} (dumps : π → PyStr)
    (pick : List Subscriber → Subscriber) (subscribers : List Subscriber)
    (service : PyStr) (version : PyVal) (endpoint : PyStr) (payload : π) :
    List (PyStr × PyStr) :=
  (getPubsubKey service version endpoint none, dumps payload) ::
    xpublishActions dumps pick subscribers service version endpoint payload

end Vyked

namespace Vyked

/-! ### TCPBus (`src/vyked/bus.py` lines 59-214) -/

/-- Embedding of a packet dict. Field `ptype` embeds the `'type'` key,
`fromN` the `'from'` key and `toN` the `'to'` key (`from` is a Lean
keyword); the remaining fields embed the keys of the same name. -/
structure Packet where
  ptype : PyStr
  name : PyStr
  version : PyVal
  entity : PyStr
  endpoint : PyStr
  payload : PyStr
  fromN : Option PyStr
  toN : Option PyStr
  deriving DecidableEq, Repr

/-- One `(host, port, node_id, service_type)` tuple as returned by the
registry client's `resolve`, `get_all_addresses` and `get_for_node`. -/
structure NodeProps where
  host : PyStr
  port : Nat
  node_id : PyStr
  service_type : PyStr
  deriving DecidableEq, Repr

/-- A client protocol handle held in `TCPBus._client_protocols`, exposing
`is_connected()`. -/
structure Protocol where
  connected : Bool
  deriving DecidableEq, Repr

/-- Embedding of `TCPBus._get_node_id_for_packet` (bus.py lines 170-173):
resolve `(packet['name'], packet['version'], packet['entity'])` for TCP and
return `node[2] if node else None`. The registry client's `resolve` is the
oracle parameter. -/
def getNodeIdForPacket (resolve : PyStr → PyVal → PyStr → Option NodeProps)
    (packet : Packet) : Option PyStr :=
  (resolve packet.name packet.version packet.entity).map (·.node_id)

/-- Embedding of one un-retried execution of `TCPBus._request_sender`
(bus.py lines 118-137). `protocols` embeds the dict
`self._client_protocols` (`.get` returns `None` on a missing key, and
`node_id` may itself be `None`). The Python guard
`if node_id and client_protocol:` tests truthiness of both; on success the
method sets `packet['to'] = node_id`, hands the packet to
`client_protocol.send` and returns `True`. The returned pair is
`(return value, packets handed to the transport)`. -/
def requestSenderAttempt (resolve : PyStr → PyVal → PyStr → Option NodeProps)
    (protocols : PyStr → Option Protocol) (packet : Packet) :
    Except PyErr (Bool × List Packet) :=
  let node_id := getNodeIdForPacket resolve packet
  let client_protocol := node_id.bind protocols
  match client_protocol, pyTruthy node_id with
  | some cp, true =>
      if cp.connected then .ok (true, [{ packet with toN := node_id }])
      else .error .clientDisconnected
  | _, _ => .error .clientNotFoundError

/-- Modelled from the spec: the `retry` decorator of the external `retrial`
library (absent from `src/`) as configured at bus.py lines 116-117. The
fields carry the decorator's keyword arguments. -/
structure RetryPolicy (ε α : Type) where
  max_attempts : Nat
  multiplier : Nat
  should_retry_for_result : α → Bool
  should_retry_for_exception : ε → Bool

/-- Modelled from the spec: executing a function under the retry decorator.
`attempt i` is the outcome of the `i`-th underlying call (the bus's state
may change between attempts, so the oracle depends on `i`); `delay` is the
current backoff delay and the fuel argument is the number of attempts still
allowed. Per the spec's retry policy, a retryable outcome with attempts
remaining sleeps the current delay, multiplies it by the configured
multiplier, and retries; otherwise the outcome is returned (a result) or
raised (an exception). The result triple is
`(final outcome, attempts performed, delays slept)`. -/
def retryRun {ε α : Type} (p : RetryPolicy ε α) (attempt : Nat → Except ε α)
    (delay i : Nat) : Nat → Except ε α × Nat × List Nat
  | 0 => (attempt i, 1, [])
  | 1 => (attempt i, 1, [])
  | fuel + 2 =>
      let o := attempt i
      let retryable := match o with
        | .ok a => p.should_retry_for_result a
        | .error e => p.should_retry_for_exception e
      if retryable then
        let r := retryRun p attempt (delay * p.multiplier) (i + 1) (fuel + 1)
        (r.1, r.2.1 + 1, delay :: r.2.2)
      else (o, 1, [])

/-- The retry policy configured on `_request_sender` (bus.py lines
116-117): `should_retry_for_result=lambda x: not x`,
`should_retry_for_exception=lambda x: True`, `max_attempts=5`,
`multiplier=2`. The result predicate applies Python `not` to the method's
return value, which is the `Bool` component of the embedded result. -/
def requestSenderPolicy : RetryPolicy PyErr (Bool × List Packet) :=
  { max_attempts := 5
    multiplier := 2
    should_retry_for_result := fun x => !x.1
    should_retry_for_exception := fun _ => true }

/-- The retried `_request_sender`: `retryRun` under `requestSenderPolicy`,
starting at attempt `0` with base delay `d` and the full attempt budget. -/
def retriedRequestSend (attempt : Nat → Except PyErr (Bool × List Packet))
    (d : Nat) : Except PyErr (Bool × List Packet) × Nat × List Nat :=
  retryRun requestSenderPolicy attempt d 0 requestSenderPolicy.max_attempts

/-- Embedding of `TCPBus.send` (bus.py lines 111-114): stamp
`packet['from'] = self._host_id`, then dispatch on
`getattr(self, '_' + packet['type'] + '_sender')`. The only attribute of
`TCPBus` whose name ends in `_sender` is `_request_sender`, so any other
`type` raises `AttributeError`; for `'request'` the retried sender runs as
a detached task with the stamped packet. -/
def send (host_id : PyStr) (resolve : PyStr → PyVal → PyStr → Option NodeProps)
    (protocols : PyStr → Option Protocol) (d : Nat) (packet : Packet) :
    Except PyErr (Except PyErr (Bool × List Packet) × Nat × List Nat) :=
  let stamped := { packet with fromN := some host_id }
  if stamped.ptype == pys "request" then
    .ok (retriedRequestSend
      (fun _ => requestSenderAttempt resolve protocols stamped) d)
  else .error .attributeError

/-- One connection attempt issued through `TCPBus._connect_to_client`:
the arguments of the `create_connection` future created at bus.py lines
139-146, paired with the service client recorded in `_node_clients`. -/
structure ConnAttempt where
  host : PyStr
  node_id : PyStr
  port : Nat
  sc : ServiceClient
  deriving DecidableEq, Repr

/-- Embedding of the future-creation loop of `TCPBus._create_service_clients`
(bus.py lines 73-81): for every service client and every address from
`get_all_addresses`, if `service_type == 'tcp'` then record
`_node_clients[node_id] = sc` and create one connection future. The list
returned is the futures created, in loop order; each attempt's
`(node_id, sc)` pair is the `_node_clients` assignment made beside it. -/
def createServiceClients (get_all_addresses : ServiceClient → List NodeProps)
    (service_clients : List ServiceClient) : List ConnAttempt :=
  service_clients.flatMap (fun sc =>
    (get_all_addresses sc).filterMap (fun a =>
      if a.service_type == pys "tcp" then
        some { host := a.host, node_id := a.node_id, port := a.port, sc := sc }
      else none))

/-- Embedding of `asyncio.gather(*futures, return_exceptions=False)`: the
gathered result is the first failing future's exception if any, else the
list of results; the futures themselves all keep running either way. -/
def gatherFirstError {ε : Type} (outcome : ConnAttempt → Except ε Unit)
    (attempts : List ConnAttempt) : Except ε (List Unit) :=
  attempts.foldl
    (fun acc a =>
      match acc, outcome a with
      | .error e, _ => .error e
      | .ok us, .ok u => .ok (us ++ [u])
      | .ok _, .error e => .error e)
    (.ok [])

/-- The whole of `_create_service_clients` with per-future outcomes made
explicit: all futures are created eagerly in the loop before `gather`
consults any outcome, so the attempt list is computed independently of
`outcome`. -/
def createServiceClientsRun (get_all_addresses : ServiceClient → List NodeProps)
    (service_clients : List ServiceClient)
    (outcome : ConnAttempt → Except PyErr Unit) :
    List ConnAttempt × Except PyErr (List Unit) :=
  let futures := createServiceClients get_all_addresses service_clients
  (futures, gatherFirstError outcome futures)

/-- The mutable `TCPBus` state touched by `handle_ping_timeout`: the keys
of the `_pingers` dict and the `_client_protocols` dict (as an association
list). -/
structure TCPBusState where
  pingers : List PyStr
  client_protocols : List (PyStr × Protocol)
  deriving Repr

/-- Embedding of `TCPBus.handle_ping_timeout` (bus.py lines 175-182):
`self._pingers.pop(node_id, None)` removes the pinger entry (and only
that — `_client_protocols` is not touched); then
`service_props = self._registry_client.get_for_node(node_id)`; when it is
not `None` the code evaluates
`self._connect_to_client(host, _node_id, port, _type)`, which passes 4
positional arguments to a method whose signature
`_connect_to_client(self, host, node_id, port, service_type, service_client)`
requires 5, so Python raises `TypeError` there and no connection future is
created. The result pair is `(state after, raised exception or the list of
connection attempts issued)`. -/
def handle_ping_timeout (get_for_node : PyStr → Option NodeProps)
    (st : TCPBusState) (node_id : PyStr) :
    TCPBusState × Except PyErr (List ConnAttempt) :=
  let st1 := { st with pingers := st.pingers.filter (fun n => n != node_id) }
  match get_for_node node_id with
  | some _props => (st1, .error .typeError)
  | none => (st1, .ok [])

/-- The routing outcome of `TCPBus.receive`: what the method does with an
inbound packet. -/
inductive RouteAction where
  | handledPing
  | handledPong
  | dispatched (packet : Packet)
  | droppedWithWarning
  deriving DecidableEq, Repr

/-- The attribute names of class `TCPBus` that end in `_receiver`:
`_request_receiver` (bus.py line 196) is the only one. -/
def tcpBusReceiverAttrs : List PyStr := [pys "_request_receiver"]

/-- Embedding of `TCPBus.receive` (bus.py lines 184-194): `'ping'` and
`'pong'` are handled unconditionally; otherwise, when
`self.hosts['tcp_host'].is_for_me(packet['name'], packet['version'])`
holds, the method looks up
`getattr(self, '_' + packet['type'] + '_receiver')` — raising
`AttributeError` when no such attribute exists — and dispatches to it;
when the addressing check fails the packet is logged with
`logger.warn` and dropped. -/
def receive (is_for_me : PyStr → PyVal → Bool) (packet : Packet) :
    Except PyErr RouteAction :=
  if packet.ptype == pys "ping" then .ok .handledPing
  else if packet.ptype == pys "pong" then .ok .handledPong
  else if is_for_me packet.name packet.version then
    if (pys "_" ++ packet.ptype ++ pys "_receiver") ∈ tcpBusReceiverAttrs then
      .ok (.dispatched packet)
    else .error .attributeError
  else .ok .droppedWithWarning

end Vyked

namespace Vyked

/-! ### Theorems about the PubSubBus -/

/-- C8: every call to `publish` schedules, first and unconditionally, a
broadcast publish of the serialized payload to the slash-joined topic
`service/str(version)/endpoint`, with the exclusive-publish actions
appended after it unchanged — whatever the subscriber list and the random
draw of the exclusive path are. -/
theorem publish_always_broadcasts {π : Type} (dumps : π → PyStr)
    (pick : List Subscriber → Subscriber) (subscribers : List Subscriber)
    (service : PyStr) (version : PyVal) (endpoint : PyStr) (payload : π) :
    publishActions dumps pick subscribers service version endpoint payload =
      (List.intercalate [ '/' ] [service, version.str, endpoint], dumps payload) ::
        xpublishActions dumps pick subscribers service version endpoint payload ∧
    (List.intercalate [ '/' ] [service, version.str, endpoint], dumps payload) ∈
      publishActions dumps pick subscribers service version endpoint payload := by
  constructor
  · simp [publishActions, getPubsubKey, pyTruthy]
  · simp [publishActions, getPubsubKey, pyTruthy]

/-- C9: `_get_pubsub_key` and the `split('/')` parsing of
`subscription_handler` are mutually inverse on slash-free components: a
3-segment broadcast key parses back to `(service, str(version), endpoint)`
and a 4-segment exclusive key (nonempty `node_id`) parses back to
`(service, str(version), endpoint, node_id)`. -/
theorem pubsub_key_parse_roundtrip (service : PyStr) (version : PyVal)
    (endpoint : PyStr) (node_id : PyStr)
    (hs : '/' ∉ service) (hv : '/' ∉ version.str) (he : '/' ∉ endpoint) :
    parseTopic (getPubsubKey service version endpoint none) =
      .ok (service, version.str, endpoint, none) ∧
    ('/' ∉ node_id → node_id ≠ [] →
      parseTopic (getPubsubKey service version endpoint (some node_id)) =
        .ok (service, version.str, endpoint, some node_id)) := by
  constructor
  · have hsplit : (getPubsubKey service version endpoint none).splitOn '/' =
        [service, version.str, endpoint] := by
      unfold getPubsubKey
      rw [if_neg (by simp [pyTruthy])]
      exact List.splitOn_intercalate _ '/' (by simp_all) (by simp)
    simp [parseTopic, hsplit]
  · intro hn hne
    have hsplit : (getPubsubKey service version endpoint (some node_id)).splitOn '/' =
        [service, version.str, endpoint, node_id] := by
      unfold getPubsubKey
      rw [if_pos (by simp [pyTruthy, hne])]
      simp only [Option.getD_some]
      exact List.splitOn_intercalate _ '/' (by simp_all) (by simp)
    simp [parseTopic, hsplit]

/-- C9 witness: the roundtrip at `service='serviceA'`, `version=1`,
`endpoint='onEvent'`, `node_id='nodeY'`. -/
theorem pubsub_key_parse_roundtrip_example :
    parseTopic (getPubsubKey (pys "serviceA") (.vint 1) (pys "onEvent") none) =
      .ok (pys "serviceA", pys "1", pys "onEvent", none) ∧
    parseTopic (getPubsubKey (pys "serviceA") (.vint 1) (pys "onEvent")
        (some (pys "nodeY"))) =
      .ok (pys "serviceA", pys "1", pys "onEvent", some (pys "nodeY")) := by
  have h := pubsub_key_parse_roundtrip (pys "serviceA") (.vint 1) (pys "onEvent")
    (pys "nodeY") (by decide) (by decide) (by decide)
  exact ⟨h.1, h.2 (by decide) (by decide)⟩

end Vyked

namespace Vyked

/-- C6 counterexample: the subscription handler does NOT log-and-drop a
lookup failure — it raises. On topic `a/1/e` with no registered client it
raises `IndexError` (the `[0]` index into an empty comprehension), and on
the unparsable 2-segment topic `a/b` it raises `ValueError` (tuple
unpacking), both propagating to the caller. -/
theorem subscription_handler_raises_on_lookup_failure :
    subscription_handler [] (pys "a/1/e") (pys "p") = .error .indexError ∧
    subscription_handler [⟨pys "a", .vstr (pys "1"), [pys "e"]⟩] (pys "a/b")
      (pys "p") = .error .valueError := by
  decide

/-- C6 amended: for an inbound message whose topic shape cannot be parsed,
`subscription_handler` raises the `ValueError` to its caller; for a topic
that parses but matches no registered client by `(service, version)` it
raises `IndexError` to its caller. Nothing is logged and the message is
not silently dropped. -/
theorem subscription_handler_propagates_failures
    (clients : List ServiceClient) (topic payload : PyStr)
    (s v e : PyStr) (n : Option PyStr) :
    (parseTopic topic = .error .valueError →
      subscription_handler clients topic payload = .error .valueError) ∧
    (parseTopic topic = .ok (s, v, e, n) →
      clients.filter (fun sc => sc.name == s && sc.version.pyEq (.vstr v)) = [] →
      subscription_handler clients topic payload = .error .indexError) := by
  constructor
  · intro hp
    simp [subscription_handler, hp]
  · intro hp hf
    simp [subscription_handler, hp, hf]

/-- C6 amended witness: both failure modes at concrete inputs, via
`subscription_handler_propagates_failures`. -/
theorem subscription_handler_propagates_failures_example :
    subscription_handler [] (pys "a/1/e") (pys "q") = .error .indexError ∧
    subscription_handler [] (pys "a/b") (pys "q") = .error .valueError := by
  refine ⟨(subscription_handler_propagates_failures [] (pys "a/1/e") (pys "q")
      (pys "a") (pys "1") (pys "e") none).2 (by decide) (by decide),
    (subscription_handler_propagates_failures [] (pys "a/b") (pys "q")
      (pys "a") (pys "1") (pys "e") none).1 (by decide)⟩

/-- The two exclusive subscribers of the C1 failing input: `nodeX` with
strategy `OTHER` listed first, `nodeY` with strategy `LEADER` listed
second, both replicas of service `(A, 1)`. -/
def subOtherX : Subscriber :=
  ⟨pys "A", .vint 1, pys "h1", 8001, pys "nodeX", pys "OTHER"⟩

/-- The LEADER-tagged subscriber of the C1 failing input. -/
def subLeaderY : Subscriber :=
  ⟨pys "A", .vint 1, pys "h2", 8002, pys "nodeY", pys "LEADER"⟩

/-- C1: `xpublish` does not scan the group for a LEADER member — it only
inspects the strategy of the first registry-listed entry. With subscribers
`[(nodeX, OTHER), (nodeY, LEADER)]` and a random draw that picks the first
element (a legitimate outcome of `random.choice`), the payload goes to
nodeX's per-replica topic, not to the LEADER nodeY's topic, contradicting
the claimed leader preference and its order independence. -/
theorem xpublish_ignores_later_leader :
    (fun l => l.headI) [subOtherX, subLeaderY] ∈ [subOtherX, subLeaderY] ∧
    subLeaderY ∈ [subOtherX, subLeaderY] ∧
    subLeaderY.strategy = pys "LEADER" ∧
    xpublishActions id (fun l => l.headI) [subOtherX, subLeaderY]
        (pys "serviceA") (.vint 1) (pys "onEvent") (pys "body") =
      [(getPubsubKey (pys "serviceA") (.vint 1) (pys "onEvent")
          (some subOtherX.node_id), pys "body")] ∧
    getPubsubKey (pys "serviceA") (.vint 1) (pys "onEvent")
        (some subOtherX.node_id) ≠
      getPubsubKey (pys "serviceA") (.vint 1) (pys "onEvent")
        (some subLeaderY.node_id) := by
  decide

end Vyked

namespace Vyked

/-! ### Theorems about the TCPBus -/

/-- The registry oracle of the C2 failing input: it still reports an
address for node `n1`. -/
def pingTimeoutRegistry : PyStr → Option NodeProps :=
  fun n => if n == pys "n1" then some ⟨pys "h", 8000, pys "n1", pys "tcp"⟩ else none

/-- The bus state of the C2 failing input: node `n1` has both a pinger and
a live entry in the NodeId-to-Connection table. -/
def pingTimeoutState : TCPBusState :=
  { pingers := [pys "n1"], client_protocols := [(pys "n1", ⟨true⟩)] }

/-- C2: on a ping timeout for `n1`, whose address the registry still
reports, the code pops only the pinger entry — the NodeId-to-Connection
table still holds `n1` afterwards — and the reconnect call raises
`TypeError` (it passes 4 positional arguments to the 5-parameter
`_connect_to_client`), so no reconnect attempt is issued. -/
theorem ping_timeout_keeps_connection_entry :
    (handle_ping_timeout pingTimeoutRegistry pingTimeoutState (pys "n1")).1.client_protocols =
      [(pys "n1", ⟨true⟩)] ∧
    (handle_ping_timeout pingTimeoutRegistry pingTimeoutState (pys "n1")).1.pingers = [] ∧
    (handle_ping_timeout pingTimeoutRegistry pingTimeoutState (pys "n1")).2 =
      .error .typeError := by
  decide

/-- Every run of the retry combinator performs at least one attempt. -/
theorem retryRun_attempts_pos {ε α : Type} (p : RetryPolicy ε α)
    (attempt : Nat → Except ε α) :
    ∀ fuel delay i, 1 ≤ (retryRun p attempt delay i fuel).2.1
  | 0, _, _ => by simp [retryRun]
  | 1, _, _ => by simp [retryRun]
  | fuel + 2, delay, i => by
      simp only [retryRun]
      split
      · simp
      · simp

/-- The retry combinator never performs more attempts than its fuel (and
always performs one even with no fuel). -/
theorem retryRun_attempts_le {ε α : Type} (p : RetryPolicy ε α)
    (attempt : Nat → Except ε α) :
    ∀ fuel delay i, (retryRun p attempt delay i fuel).2.1 ≤ max fuel 1
  | 0, _, _ => by simp [retryRun]
  | 1, _, _ => by simp [retryRun]
  | fuel + 2, delay, i => by
      have ih := retryRun_attempts_le p attempt (fuel + 1) (delay * p.multiplier) (i + 1)
      simp only [retryRun]
      split
      · simp only []
        omega
      · simp

/-- The delays slept by the retry combinator form a geometric progression:
the `k`-th delay is the base delay times `multiplier ^ k`. -/
theorem retryRun_delays {ε α : Type} (p : RetryPolicy ε α)
    (attempt : Nat → Except ε α) :
    ∀ fuel delay i, (retryRun p attempt delay i fuel).2.2 =
      (List.range ((retryRun p attempt delay i fuel).2.1 - 1)).map
        (fun k => delay * p.multiplier ^ k)
  | 0, _, _ => by simp [retryRun]
  | 1, _, _ => by simp [retryRun]
  | fuel + 2, delay, i => by
      have ih := retryRun_delays p attempt (fuel + 1) (delay * p.multiplier) (i + 1)
      have hpos := retryRun_attempts_pos p attempt (fuel + 1) (delay * p.multiplier) (i + 1)
      simp only [retryRun]
      split
      · simp only [ih]
        have hsucc : (retryRun p attempt (delay * p.multiplier) (i + 1) (fuel + 1)).2.1 - 1 + 1 =
            (retryRun p attempt (delay * p.multiplier) (i + 1) (fuel + 1)).2.1 := by omega
        rw [Nat.add_sub_cancel, ← hsucc, List.range_succ_eq_map]
        simp only [List.map_cons, List.map_map, pow_zero, mul_one, List.cons.injEq, true_and]
        apply List.map_congr_left
        intro k _
        simp only [Function.comp_apply, pow_succ]
        ring
      · simp

/-- Under a policy that retries every exception, a run whose attempts all
raise performs exactly `fuel` attempts and raises the last exception. -/
theorem retryRun_all_errors {ε α : Type} (p : RetryPolicy ε α)
    (attempt : Nat → Except ε α)
    (hexc : ∀ e, p.should_retry_for_exception e = true) :
    ∀ fuel delay i, 1 ≤ fuel →
      (∀ j, i ≤ j → j < i + fuel → ∃ e, attempt j = .error e) →
      (∃ e, (retryRun p attempt delay i fuel).1 = .error e) ∧
      (retryRun p attempt delay i fuel).2.1 = fuel
  | 0, _, _, hf, _ => by omega
  | 1, delay, i, _, h => by
      obtain ⟨e, he⟩ := h i (le_refl i) (by omega)
      exact ⟨⟨e, by simp [retryRun, he]⟩, by simp [retryRun]⟩
  | fuel + 2, delay, i, _, h => by
      obtain ⟨e, he⟩ := h i (le_refl i) (by omega)
      have ih := retryRun_all_errors p attempt hexc (fuel + 1) (delay * p.multiplier)
        (i + 1) (by omega) (fun j hj hj2 => h j (by omega) (by omega))
      simp only [retryRun, he, hexc e, if_true]
      exact ⟨ih.1, by omega⟩

/-- If the first attempt's outcome is retryable, at least a second attempt
is performed (given at least two attempts of fuel). -/
theorem retryRun_retries_once {ε α : Type} (p : RetryPolicy ε α)
    (attempt : Nat → Except ε α) (fuel delay i : Nat)
    (h : (match attempt i with
          | .ok a => p.should_retry_for_result a
          | .error e => p.should_retry_for_exception e) = true) :
    2 ≤ (retryRun p attempt delay i (fuel + 2)).2.1 := by
  have hpos := retryRun_attempts_pos p attempt (fuel + 1) (delay * p.multiplier) (i + 1)
  simp only [retryRun, h, if_true]
  omega

end Vyked

namespace Vyked

/-- C3: the retried request-send makes at most 5 attempts; its inter-attempt
delays grow geometrically with multiplier 2 from the base delay; when every
attempt raises (the only failure mode of `_request_sender`, which otherwise
returns `True`), the run performs exactly 5 attempts and surfaces the
failure as a raised exception; and a first attempt that raises or returns a
falsy result is always retried. -/
theorem request_send_retry_policy
    (attempt : Nat → Except PyErr (Bool × List Packet)) (d : Nat) :
    (retriedRequestSend attempt d).2.1 ≤ 5 ∧
    (retriedRequestSend attempt d).2.2 =
      (List.range ((retriedRequestSend attempt d).2.1 - 1)).map
        (fun k => d * 2 ^ k) ∧
    ((∀ i, i < 5 → ∃ e, attempt i = .error e) →
      (∃ e, (retriedRequestSend attempt d).1 = .error e) ∧
      (retriedRequestSend attempt d).2.1 = 5) ∧
    (∀ e, attempt 0 = .error e → 2 ≤ (retriedRequestSend attempt d).2.1) ∧
    (∀ l, attempt 0 = .ok (false, l) → 2 ≤ (retriedRequestSend attempt d).2.1) := by
  refine ⟨?_, ?_, ?_, ?_, ?_⟩
  · have h := retryRun_attempts_le requestSenderPolicy attempt 5 d 0
    simpa [retriedRequestSend, requestSenderPolicy] using h
  · have h := retryRun_delays requestSenderPolicy attempt 5 d 0
    simpa [retriedRequestSend, requestSenderPolicy] using h
  · intro hall
    have h := retryRun_all_errors requestSenderPolicy attempt (fun _ => rfl) 5 d 0
      (by omega) (fun j _ hj => hall j (by omega))
    simpa [retriedRequestSend, requestSenderPolicy] using h
  · intro e he
    have h := retryRun_retries_once requestSenderPolicy attempt 3 d 0 (by simp [he, requestSenderPolicy])
    simpa [retriedRequestSend, requestSenderPolicy] using h
  · intro l hl
    have h := retryRun_retries_once requestSenderPolicy attempt 3 d 0 (by simp [hl, requestSenderPolicy])
    simpa [retriedRequestSend, requestSenderPolicy] using h

/-- C3 witness: with every attempt raising `ClientNotFoundError` and base
delay 1, the run raises after exactly 5 attempts. -/
theorem request_send_retry_policy_example :
    (∃ e, (retriedRequestSend (fun _ => .error .clientNotFoundError) 1).1 =
      .error e) ∧
    (retriedRequestSend (fun _ => .error .clientNotFoundError) 1).2.1 = 5 :=
  (request_send_retry_policy (fun _ => .error .clientNotFoundError) 1).2.2.1
    (fun _ _ => ⟨.clientNotFoundError, rfl⟩)

/-- A registry `resolve` oracle that resolves every address to node `n1`. -/
def resolveN1 : PyStr → PyVal → PyStr → Option NodeProps :=
  fun _ _ _ => some ⟨pys "h", 8001, pys "n1", pys "tcp"⟩

/-- A sample request packet. -/
def examplePacket : Packet :=
  { ptype := pys "request", name := pys "svc", version := .vint 1,
    entity := pys "ent", endpoint := pys "ep", payload := pys "pl",
    fromN := none, toN := none }

/-- C4 counterexample: a NodeId (`n1`) DOES resolve for the packet's
address, yet with no Connection entry for it the attempt raises
`ClientNotFoundError`, not `ClientDisconnected` — so `ClientNotFoundError`
is not raised exactly when no NodeId resolves, and a resolved-but-inactive
target does not always get `ClientDisconnected`. -/
theorem request_sender_notfound_despite_resolve :
    getNodeIdForPacket resolveN1 examplePacket = some (pys "n1") ∧
    (fun _ => none : PyStr → Option Protocol) (pys "n1") = none ∧
    requestSenderAttempt resolveN1 (fun _ => none) examplePacket =
      .error .clientNotFoundError := by
  decide

/-- C4 amended: within one attempt, `ClientDisconnected` is raised exactly
when a truthy NodeId resolves AND a Connection entry exists for it AND that
Connection is not connected; `ClientNotFoundError` is raised exactly when
no truthy NodeId resolves OR the resolved NodeId has no Connection entry. -/
theorem request_sender_error_classification
    (resolve : PyStr → PyVal → PyStr → Option NodeProps)
    (protocols : PyStr → Option Protocol) (packet : Packet) :
    (requestSenderAttempt resolve protocols packet = .error .clientDisconnected ↔
      ∃ n cp, getNodeIdForPacket resolve packet = some n ∧ n ≠ [] ∧
        protocols n = some cp ∧ cp.connected = false) ∧
    (requestSenderAttempt resolve protocols packet = .error .clientNotFoundError ↔
      ¬ ∃ n cp, getNodeIdForPacket resolve packet = some n ∧ n ≠ [] ∧
        protocols n = some cp) := by
  cases hres : getNodeIdForPacket resolve packet with
  | none => simp [requestSenderAttempt, hres, pyTruthy]
  | some n =>
      by_cases hn : n = []
      · subst hn
        cases hp : protocols [] with
        | none => simp [requestSenderAttempt, hres, hp, pyTruthy]
        | some cp => simp [requestSenderAttempt, hres, hp, pyTruthy]
      · cases hp : protocols n with
        | none => simp [requestSenderAttempt, hres, hp, pyTruthy, hn]
        | some cp =>
            by_cases hc : cp.connected
            · simp [requestSenderAttempt, hres, hp, pyTruthy, hn, hc]
            · simp [requestSenderAttempt, hres, hp, pyTruthy, hn, hc]

end Vyked

namespace Vyked

/-- C5: the set of connection futures created by `_create_service_clients`
is computed before any per-future outcome is observed — so one future's
failure leaves every other replica's attempt in place — and a connection is
attempted precisely for every TCP-typed replica of every registered service
client. -/
theorem create_service_clients_attempts
    (get_all_addresses : ServiceClient → List NodeProps)
    (service_clients : List ServiceClient)
    (outcome outcome' : ConnAttempt → Except PyErr Unit) :
    (createServiceClientsRun get_all_addresses service_clients outcome).1 =
      (createServiceClientsRun get_all_addresses service_clients outcome').1 ∧
    ∀ a, (a ∈ (createServiceClientsRun get_all_addresses service_clients outcome).1 ↔
      ∃ sc ∈ service_clients, ∃ np ∈ get_all_addresses sc,
        np.service_type = pys "tcp" ∧
        a = { host := np.host, node_id := np.node_id, port := np.port, sc := sc }) := by
  refine ⟨rfl, fun a => ?_⟩
  simp only [createServiceClientsRun, createServiceClients, List.mem_flatMap,
    List.mem_filterMap]
  constructor
  · rintro ⟨sc, hsc, np, hnp, hif⟩
    refine ⟨sc, hsc, np, hnp, ?_⟩
    by_cases h : np.service_type = pys "tcp"
    · simp only [h, beq_self_eq_true, if_true, Option.some.injEq] at hif
      exact ⟨h, hif.symm⟩
    · simp [h] at hif
  · rintro ⟨sc, hsc, np, hnp, ht, rfl⟩
    exact ⟨sc, hsc, np, hnp, by simp [ht]⟩

/-- The connection table of the C7 witness: node `n1` has a connected
protocol. -/
def protoTableN1 : PyStr → Option Protocol :=
  fun n => if n == pys "n1" then some ⟨true⟩ else none

/-- C7: when the packet's address resolves to a truthy NodeId whose
Connection is connected, `send` succeeds on the first attempt — exactly one
packet is handed to the transport, with `to` the resolved NodeId and `from`
the local host id — with no retry and no backoff sleep. -/
theorem send_request_single_packet (host_id : PyStr)
    (resolve : PyStr → PyVal → PyStr → Option NodeProps)
    (protocols : PyStr → Option Protocol) (d : Nat) (packet : Packet)
    (n : PyStr) (cp : Protocol)
    (htype : packet.ptype = pys "request")
    (hres : getNodeIdForPacket resolve packet = some n)
    (hn : n ≠ [])
    (hproto : protocols n = some cp)
    (hconn : cp.connected = true) :
    send host_id resolve protocols d packet =
      .ok (.ok (true, [{ packet with fromN := some host_id, toN := some n }]),
        1, []) := by
  obtain ⟨pt, nm, vs, en, ep, pl, fr, tn⟩ := packet
  dsimp only at htype hres ⊢
  subst htype
  have hres' : (resolve nm vs en).map NodeProps.node_id = some n := hres
  have hattempt : requestSenderAttempt resolve protocols
      ⟨pys "request", nm, vs, en, ep, pl, some host_id, tn⟩ =
      .ok (true, [⟨pys "request", nm, vs, en, ep, pl, some host_id, some n⟩]) := by
    simp [requestSenderAttempt, getNodeIdForPacket, hres', hproto, pyTruthy,
      hn, hconn]
  simp [send, retriedRequestSend, requestSenderPolicy, retryRun, hattempt]

/-- C7 witness: the success path at a concrete host id, registry, table,
delay and packet. -/
theorem send_request_single_packet_example :
    send (pys "host0") resolveN1 protoTableN1 7 examplePacket =
      .ok (.ok (true,
        [{ examplePacket with fromN := some (pys "host0"), toN := some (pys "n1") }]),
        1, []) :=
  send_request_single_packet (pys "host0") resolveN1 protoTableN1 7
    examplePacket (pys "n1") ⟨true⟩ rfl rfl (by decide) (by decide) rfl

/-- Building the receiver attribute name `'_' + type + '_receiver'` hits an
attribute of `TCPBus` exactly when the packet type is `request`. -/
theorem receiver_attr_mem (t : PyStr) :
    ((pys "_" ++ (t ++ pys "_receiver")) ∈ tcpBusReceiverAttrs) ↔
      t = pys "request" := by
  have hdecomp : pys "_request_receiver" =
      pys "_" ++ (pys "request" ++ pys "_receiver") := by decide
  simp only [tcpBusReceiverAttrs, List.mem_singleton]
  constructor
  · intro h
    rw [hdecomp] at h
    exact List.append_cancel_right (List.append_cancel_left h)
  · rintro rfl
    exact hdecomp.symm

/-- C10: an inbound packet that is neither `ping` nor `pong` and is
addressed to the locally hosted service is dispatched when its type is
`request`, and makes `receive` raise `AttributeError` for every other
type — while the log-and-drop treatment applies (only) to packets failing
the addressing check. -/
theorem receive_unknown_type_raises (is_for_me : PyStr → PyVal → Bool)
    (packet : Packet)
    (hping : packet.ptype ≠ pys "ping") (hpong : packet.ptype ≠ pys "pong") :
    (is_for_me packet.name packet.version = true →
      (packet.ptype = pys "request" →
        receive is_for_me packet = .ok (.dispatched packet)) ∧
      (packet.ptype ≠ pys "request" →
        receive is_for_me packet = .error .attributeError)) ∧
    (is_for_me packet.name packet.version = false →
      receive is_for_me packet = .ok .droppedWithWarning) := by
  constructor
  · intro hme
    constructor
    · intro ht
      simp [receive, hping, hpong, hme, receiver_attr_mem, ht,
        (by decide : pys "request" ≠ pys "ping"),
        (by decide : pys "request" ≠ pys "pong")]
    · intro ht
      simp [receive, hping, hpong, hme, receiver_attr_mem, ht]
  · intro hme
    simp [receive, hping, hpong, hme]

/-- C10 witness: a matching packet of the application-defined type
`message` raises `AttributeError`; the same packet on a non-matching host
is dropped with a warning; a matching `request` packet is dispatched. -/
theorem receive_unknown_type_raises_example :
    receive (fun _ _ => true) { examplePacket with ptype := pys "message" } =
      .error .attributeError ∧
    receive (fun _ _ => false) { examplePacket with ptype := pys "message" } =
      .ok .droppedWithWarning ∧
    receive (fun _ _ => true) examplePacket = .ok (.dispatched examplePacket) :=
  ⟨((receive_unknown_type_raises (fun _ _ => true)
      { examplePacket with ptype := pys "message" } (by decide) (by decide)).1
      rfl).2 (by decide),
   (receive_unknown_type_raises (fun _ _ => false)
      { examplePacket with ptype := pys "message" } (by decide) (by decide)).2
      rfl,
   ((receive_unknown_type_raises (fun _ _ => true) examplePacket (by decide)
      (by decide)).1 rfl).1 rfl⟩

end Vyked
